/-
Verification of the authentication core of rustpress (auth-plugin and
advanced-app copies): shallow embedding of the Rust source in Lean 4.

Conventions of the embedding:
- timestamps are `Int` (seconds); `now` is passed explicitly where the
  source calls `Utc::now()` / SQL `NOW()`;
- SQL tables are `List` values; an `UPDATE ... WHERE c` is a `List.map`
  that rewrites the rows satisfying `c`; an `INSERT` is an append;
  `fetch_optional` is `List.find?`;
- machine integers are `Int`/`Nat` (no overflow is reachable in the
  modelled paths: counters stay tiny);
- fallible Rust functions returning `Result<T, AuthError>` become
  `Except AuthError T`;
- randomness (fresh UUIDs, fresh token bytes) is passed in as explicit
  arguments;
- Unicode character classes (`char::is_uppercase` etc.) are modelled by
  their ASCII restriction, with which they agree on ASCII passwords.
-/
import Mathlib

namespace Rustpress

/-- Error taxonomy, from `src/plugin/auth-plugin/src/error.rs` and the
mirrored enum in the advanced app. -/
inductive AuthError where
  | InvalidCredentials
  | AccountLocked
  | AccountNotActive
  | EmailNotVerified
  | InvalidToken
  | TokenRevoked
  | UserNotFound
  | EmailExists
  | WeakPassword
  | Validation (detail : String)
  | Internal
  deriving DecidableEq, Repr

/-- Configuration fields used by the modelled operations, from
`src/plugin/auth-plugin/src/config.rs` (`AuthConfig`). -/
structure AuthConfig where
  access_token_expiration : Int
  refresh_token_expiration : Int
  max_login_attempts : Int
  lockout_duration : Int
  password_reset_expiration : Int
  email_verification_expiration : Int
  min_password_length : Nat
  require_email_verification : Bool
  deriving DecidableEq, Repr

/-- The `unwrap_or` defaults of `AuthConfig::from_env`. -/
def defaultConfig : AuthConfig where
  access_token_expiration := 900
  refresh_token_expiration := 604800
  max_login_attempts := 5
  lockout_duration := 900
  password_reset_expiration := 3600
  email_verification_expiration := 86400
  min_password_length := 8
  require_email_verification := false

/-- `UserStatus` from `src/plugin/auth-plugin/src/models.rs`. -/
inductive UserStatus where
  | Pending
  | Active
  | Suspended
  | Deleted
  deriving DecidableEq, Repr

/-- The fields of the `User` row that the modelled operations read or
write (`src/plugin/auth-plugin/src/models.rs`). -/
structure User where
  id : Nat
  email : String
  status : UserStatus
  email_verified_at : Option Int
  last_login_at : Option Int
  last_login_ip : Option String
  failed_login_attempts : Int
  locked_until : Option Int
  deriving DecidableEq, Repr

/-- `User::is_locked`: `locked_until > Utc::now()` when set. -/
def User.is_locked (now : Int) (u : User) : Bool :=
  match u.locked_until with
  | some t => now < t
  | none => false

/-- `User::is_email_verified`. -/
def User.is_email_verified (u : User) : Bool :=
  u.email_verified_at.isSome

/-- `User::can_login`: active and not locked. -/
def User.can_login (now : Int) (u : User) : Bool :=
  u.status = UserStatus.Active && !(u.is_locked now)

-- ============================================
-- Password strength (C5)
-- ============================================

/-- Byte length of a password, as Rust's `str::len` counts UTF-8 bytes. -/
def pwByteLen (p : String) : Nat :=
  (p.data.map Char.utf8Size).sum

/-- `password.chars().any(|c| c.is_uppercase())` (ASCII restriction). -/
def hasUppercase (p : String) : Bool :=
  p.data.any Char.isUpper

/-- `password.chars().any(|c| c.is_lowercase())` (ASCII restriction). -/
def hasLowercase (p : String) : Bool :=
  p.data.any Char.isLower

/-- `password.chars().any(|c| c.is_ascii_digit())`. -/
def hasDigit (p : String) : Bool :=
  p.data.any Char.isDigit

/-- `AuthService::validate_password` from
`src/plugin/auth-plugin/src/service.rs` lines 97-112: minimum length,
then at least one uppercase, one lowercase and one digit. -/
def validate_password (cfg : AuthConfig) (password : String) :
    Except AuthError Unit :=
  if pwByteLen password < cfg.min_password_length then
    .error .WeakPassword
  else if !(hasUppercase password) || !(hasLowercase password)
      || !(hasDigit password) then
    .error .WeakPassword
  else
    .ok ()

/-- `AuthService::validate_password` from
`src/app/advanced-app/src/auth/service.rs` lines 485-497: the weaker
variant, minimum length only. -/
def app_validate_password (cfg : AuthConfig) (password : String) :
    Except AuthError Unit :=
  if pwByteLen password < cfg.min_password_length then
    .error .WeakPassword
  else
    .ok ()

-- ============================================
-- Token encoding (C10)
-- ============================================

/-- One lowercase hexadecimal digit, as produced for a nibble by Rust's
`{:02x}` formatting. -/
def hexDigit (n : Nat) : Char :=
  if n < 10 then Char.ofNat (48 + n) else Char.ofNat (87 + n)

/-- `write!(result, "{:02x}", byte)`: a byte as exactly two lowercase
hex digits (zero-padded). The `% 16` on the high nibble records that the
source value is a `u8`. -/
def byteToHex (b : Nat) : List Char :=
  [hexDigit (b / 16 % 16), hexDigit (b % 16)]

/-- `base64_url_encode` from `src/plugin/auth-plugin/src/service.rs`
lines 701-708: despite its name it writes each byte as `{:02x}`, i.e. it
hex-encodes. `hex::encode` in the advanced app
(`generate_random_token`, lines 575-580) produces the same string. -/
def base64_url_encode (data : List Nat) : String :=
  ⟨data.flatMap byteToHex⟩

/-- Membership in the lowercase-hex alphabet `0-9a-f`. -/
def isLowerHexChar (c : Char) : Bool :=
  ('0' ≤ c && c ≤ '9') || ('a' ≤ c && c ≤ 'f')

-- ============================================
-- Refresh tokens (C1, C2, C4)
-- ============================================

/-- `RefreshToken` row from `src/plugin/auth-plugin/src/models.rs`
(fields the modelled operations touch). -/
structure RefreshToken where
  id : Nat
  user_id : Nat
  token_hash : String
  expires_at : Int
  revoked_at : Option Int
  replaced_by : Option Nat
  deriving DecidableEq, Repr

/-- `RefreshToken::is_expired`: `expires_at < Utc::now()`. -/
def RefreshToken.is_expired (now : Int) (rt : RefreshToken) : Bool :=
  rt.expires_at < now

/-- `RefreshToken::is_revoked`: `revoked_at.is_some()`. -/
def RefreshToken.is_revoked (rt : RefreshToken) : Bool :=
  rt.revoked_at.isSome

/-- `RefreshToken::is_valid`: neither expired nor revoked. -/
def RefreshToken.is_valid (now : Int) (rt : RefreshToken) : Bool :=
  !(rt.is_expired now) && !(rt.is_revoked)

/-- The `sub`/`tid` payload of a decoded `RefreshTokenClaims` JWT. -/
structure RefreshTokenClaims where
  sub : Nat
  tid : Nat
  deriving DecidableEq, Repr

/-- `AuthService::revoke_all_tokens` (plugin, service.rs 418-427) and
`revoke_all_user_tokens` (app, service.rs 648-659):
`UPDATE refresh_tokens SET revoked_at = NOW()
 WHERE user_id = $1 AND revoked_at IS NULL`. -/
def revoke_all_tokens (now : Int) (user_id : Nat)
    (tbl : List RefreshToken) : List RefreshToken :=
  tbl.map fun rt =>
    if rt.user_id = user_id ∧ rt.revoked_at = none then
      { rt with revoked_at := some now }
    else rt

/-- The plugin's rotation revoke (service.rs 404-407):
`UPDATE refresh_tokens SET revoked_at = NOW() WHERE id = $1`.
Returns the updated table and the number of rows matched
(`rows_affected`); note that the `WHERE` clause does not test
`revoked_at`, so an already-revoked row still matches. -/
def revoke_by_id (now : Int) (tid : Nat) (tbl : List RefreshToken) :
    List RefreshToken × Nat :=
  (tbl.map fun rt =>
      if rt.id = tid then { rt with revoked_at := some now } else rt,
   (tbl.filter fun rt => rt.id = tid).length)

/-- `AuthService::revoke_refresh_token` (app, service.rs 633-645):
`UPDATE refresh_tokens SET revoked_at = NOW(), replaced_by = $1
 WHERE id = $2` — again with no condition on `revoked_at`. -/
def app_revoke_refresh_token (now : Int) (token_id : Nat)
    (replaced_by : Option Nat) (tbl : List RefreshToken) :
    List RefreshToken × Nat :=
  (tbl.map fun rt =>
      if rt.id = token_id then
        { rt with revoked_at := some now, replaced_by := replaced_by }
      else rt,
   (tbl.filter fun rt => rt.id = token_id).length)

/-- The database row inserted by the plugin's
`generate_refresh_token` (service.rs 140-186): a fresh record for
`user_id`, hash of the fresh secret, expiry `now + refresh_token_expiration`. -/
def generate_refresh_token_row (cfg : AuthConfig) (now : Int)
    (user_id new_tid : Nat) (new_hash : String) : RefreshToken :=
  { id := new_tid
    user_id := user_id
    token_hash := new_hash
    expires_at := now + cfg.refresh_token_expiration
    revoked_at := none
    replaced_by := none }

/-- The validation phase of the plugin's `refresh_tokens`
(service.rs 341-395): look the record up by `(id, token_hash)`, run the
reuse check — revoking the whole account on a revoked record — then
load the user and check `can_login`. Returns the user on success,
together with the (possibly mass-revoked) table. -/
def refresh_validate (now : Int) (claims : RefreshTokenClaims)
    (token_hash : String) (users : List User)
    (tbl : List RefreshToken) :
    Except AuthError User × List RefreshToken :=
  match tbl.find? fun rt =>
      rt.id = claims.tid && rt.token_hash = token_hash with
  | none => (.error .InvalidToken, tbl)
  | some stored =>
    if !(stored.is_valid now) then
      if stored.is_revoked then
        (.error .TokenRevoked, revoke_all_tokens now claims.sub tbl)
      else
        (.error .TokenRevoked, tbl)
    else
      match users.find? fun u => u.id = claims.sub with
      | none => (.error .UserNotFound, tbl)
      | some user =>
        if !(user.can_login now) then (.error .AccountNotActive, tbl)
        else (.ok user, tbl)

/-- The commit phase of the plugin's `refresh_tokens`
(service.rs 397-415): insert the freshly generated refresh record, then
unconditionally revoke the presented record (rotation). -/
def refresh_commit (cfg : AuthConfig) (now : Int)
    (claims : RefreshTokenClaims) (user : User) (new_tid : Nat)
    (new_hash : String) (tbl : List RefreshToken) : List RefreshToken :=
  let tbl1 := tbl ++
    [generate_refresh_token_row cfg now user.id new_tid new_hash]
  (revoke_by_id now claims.tid tbl1).1

/-- `AuthService::refresh_tokens` from
`src/plugin/auth-plugin/src/service.rs` lines 341-415, from the point
where the JWT has been decoded into `claims` and the presented secret
hashed into `token_hash`. Returns the outcome and the updated
`refresh_tokens` table. -/
def refresh_tokens (cfg : AuthConfig) (now : Int)
    (claims : RefreshTokenClaims) (token_hash : String)
    (users : List User) (tbl : List RefreshToken) (new_tid : Nat)
    (new_hash : String) : Except AuthError Unit × List RefreshToken :=
  match refresh_validate now claims token_hash users tbl with
  | (.error e, tbl') => (.error e, tbl')
  | (.ok user, tbl') =>
    (.ok (), refresh_commit cfg now claims user new_tid new_hash tbl')

/-- `AuthService::refresh_tokens` from
`src/app/advanced-app/src/auth/service.rs` lines 148-216, from the
point where the JWT has been decoded into `claims`. The app looks the
record up by `(token_hash, user_id)`, distinguishes revoked
(`TokenRevoked` + mass revocation) from expired (`InvalidToken`),
revokes the presented record with `replaced_by = NULL`, inserts the new
record, then sets the old row's `replaced_by` to `claims.tid`. -/
def app_refresh_tokens (cfg : AuthConfig) (now : Int)
    (claims : RefreshTokenClaims) (token_hash : String)
    (users : List User) (tbl : List RefreshToken) (new_tid : Nat)
    (new_hash : String) : Except AuthError Unit × List RefreshToken :=
  match tbl.find? fun rt =>
      rt.token_hash = token_hash && rt.user_id = claims.sub with
  | none => (.error .InvalidToken, tbl)
  | some stored =>
    if stored.is_revoked then
      (.error .TokenRevoked, revoke_all_tokens now stored.user_id tbl)
    else if stored.is_expired now then
      (.error .InvalidToken, tbl)
    else
      match users.find? fun u => u.id = claims.sub with
      | none => (.error .UserNotFound, tbl)
      | some user =>
        if !(user.can_login now) then (.error .AccountNotActive, tbl)
        else
          let tbl1 := (app_revoke_refresh_token now stored.id none tbl).1
          let tbl2 := tbl1 ++
            [generate_refresh_token_row cfg now user.id new_tid new_hash]
          let tbl3 := tbl2.map fun rt =>
            if rt.id = stored.id then
              { rt with replaced_by := some claims.tid }
            else rt
          (.ok (), tbl3)

-- ============================================
-- Login and lockout (C3, C7)
-- ============================================

/-- `AuthService::increment_failed_attempts` from
`src/plugin/auth-plugin/src/service.rs` lines 647-672. The SQL sets
`failed_login_attempts = failed_login_attempts + 1` and
`locked_until = CASE WHEN failed_login_attempts + 1 >= $max
 THEN NOW() + $dur ELSE locked_until END`: below the threshold the
existing `locked_until` is kept. -/
def increment_failed_attempts (cfg : AuthConfig) (now : Int)
    (u : User) : User :=
  { u with
    failed_login_attempts := u.failed_login_attempts + 1
    locked_until :=
      if cfg.max_login_attempts ≤ u.failed_login_attempts + 1 then
        some (now + cfg.lockout_duration)
      else u.locked_until }

/-- `AuthService::increment_failed_attempts` from
`src/app/advanced-app/src/auth/service.rs` lines 583-606. The app
computes `locked_until` in Rust as `Some(now + dur)` at the threshold
and `None` below it, and writes that value back — overwriting whatever
was stored. -/
def app_increment_failed_attempts (cfg : AuthConfig) (now : Int)
    (u : User) : User :=
  let new_attempts := u.failed_login_attempts + 1
  let locked_until :=
    if cfg.max_login_attempts ≤ new_attempts then
      some (now + cfg.lockout_duration)
    else none
  { u with
    failed_login_attempts := new_attempts
    locked_until := locked_until }

/-- `AuthService::record_successful_login` from
`src/plugin/auth-plugin/src/service.rs` lines 675-697:
`failed_login_attempts = 0, locked_until = NULL,
 last_login_at = NOW(), last_login_ip = $ip`. -/
def record_successful_login (now : Int) (ip : Option String)
    (u : User) : User :=
  { u with
    failed_login_attempts := 0
    locked_until := none
    last_login_at := some now
    last_login_ip := ip }

/-- `AuthService::login` from `src/plugin/auth-plugin/src/service.rs`
lines 255-308, for an account that exists, from the point where the
user row has been fetched. `password_correct` stands for the outcome
of the Argon2 `verify_password` call on the presented password.
Returns the outcome and the updated user row. -/
def login (cfg : AuthConfig) (now : Int) (u : User)
    (password_correct : Bool) (ip : Option String) :
    Except AuthError Unit × User :=
  if u.is_locked now then (.error .AccountLocked, u)
  else if u.status ≠ UserStatus.Active then (.error .AccountNotActive, u)
  else if !password_correct then
    (.error .InvalidCredentials, increment_failed_attempts cfg now u)
  else if cfg.require_email_verification && !(u.is_email_verified) then
    (.error .EmailNotVerified, u)
  else
    (.ok (), record_successful_login now ip u)

/-- The spec's lockout scenario: a sequence of wrong-password login
attempts at the given times, threading the account state through
`login`. -/
def iterate_failed_logins (ts : List Int) (ip : Option String)
    (u : User) : User :=
  ts.foldl (fun v t => (login defaultConfig t v false ip).2) u

-- ============================================
-- Single-use tokens (C8)
-- ============================================

/-- Shared row shape of `password_reset_tokens` and
`email_verification_tokens` (the app's email table calls the marker
column `verified_at`; it plays the same role as `used_at`). -/
structure SingleUseToken where
  id : Nat
  user_id : Nat
  token_hash : String
  expires_at : Int
  used_at : Option Int
  deriving DecidableEq, Repr

/-- A token row is usable while unused and unexpired
(`expires_at > NOW() AND used_at IS NULL`, the `WHERE` clause of
`reset_password` / `verify_email`). -/
def SingleUseToken.usable (now : Int) (t : SingleUseToken) : Bool :=
  t.used_at = none && now < t.expires_at

/-- The token-table effect of the plugin's `forgot_password`
(service.rs 434-471) once the user is found: first
`UPDATE password_reset_tokens SET used_at = NOW()
 WHERE user_id = $1 AND used_at IS NULL`, then insert the fresh token
row. -/
def plugin_issue_reset_token (cfg : AuthConfig) (now : Int)
    (user_id new_id : Nat) (new_hash : String)
    (tbl : List SingleUseToken) : List SingleUseToken :=
  let tbl1 := tbl.map fun t =>
    if t.user_id = user_id ∧ t.used_at = none then
      { t with used_at := some now }
    else t
  tbl1 ++ [{ id := new_id, user_id := user_id, token_hash := new_hash,
             expires_at := now + cfg.password_reset_expiration,
             used_at := none }]

/-- The token-table effect of the plugin's `create_email_verification`
(service.rs 561-588): identical pattern — invalidate outstanding
unused tokens of the purpose, then insert the fresh one. -/
def plugin_issue_email_verification (cfg : AuthConfig) (now : Int)
    (user_id new_id : Nat) (new_hash : String)
    (tbl : List SingleUseToken) : List SingleUseToken :=
  let tbl1 := tbl.map fun t =>
    if t.user_id = user_id ∧ t.used_at = none then
      { t with used_at := some now }
    else t
  tbl1 ++ [{ id := new_id, user_id := user_id, token_hash := new_hash,
             expires_at := now + cfg.email_verification_expiration,
             used_at := none }]

/-- The token-table effect of the app's `forgot_password`
(`src/app/advanced-app/src/auth/service.rs` lines 285-315) once the
user is found: it only inserts the fresh row — there is no
invalidating `UPDATE` of outstanding tokens. -/
def app_issue_reset_token (cfg : AuthConfig) (now : Int)
    (user_id new_id : Nat) (new_hash : String)
    (tbl : List SingleUseToken) : List SingleUseToken :=
  tbl ++ [{ id := new_id, user_id := user_id, token_hash := new_hash,
            expires_at := now + cfg.password_reset_expiration,
            used_at := none }]

-- ============================================
-- forgot_password response (C9)
-- ============================================

/-- The string returned by the plugin's `forgot_password` service
(service.rs 434-471): the empty string when no account matches the
email (`return Ok(String::new())`), the fresh plaintext token when one
does. -/
def forgot_password_service (users : List User) (email : String)
    (fresh_token : String) : String :=
  match users.find? fun u => u.email = email with
  | none => ""
  | some _ => fresh_token

/-- Shape of the JSON body built by the `forgot_password` handler. -/
structure ForgotPasswordResponse where
  message : String
  reset_token : Option String
  deriving DecidableEq, Repr

/-- The `forgot_password` handler from
`src/plugin/auth-plugin/src/handlers.rs` lines 152-170: always a 200
with a fixed message, plus a `reset_token` field holding
`Some(token)` iff the service's token string is non-empty. -/
def forgot_password_handler (users : List User) (email : String)
    (fresh_token : String) : ForgotPasswordResponse :=
  let token := forgot_password_service users email fresh_token
  { message :=
      "If an account with that email exists, a password reset link has been sent."
    reset_token := if !token.isEmpty then some token else none }

-- ============================================
-- Password digest verification (C6)
-- ============================================

/-- Modelled from the spec: the `CredentialHasher` digest is "a
self-describing digest string encoding algorithm, version, parameters,
salt, and output" in PHC string format — `$`-separated fields with a
leading `$` and a non-empty lowercase algorithm identifier. The actual
parser lives in the external `argon2`/`password-hash` crates, outside
this repository; this model keeps only the shape needed to classify a
digest as well-formed or malformed. -/
structure PhcDigest where
  algorithm : List Char
  rest : List (List Char)
  deriving DecidableEq, Repr

/-- Split a character list on `$` separators (the PHC field
separator), keeping empty fields, like `str::split`. -/
def splitOnDollar : List Char → List (List Char)
  | [] => [[]]
  | c :: cs =>
    if c = '$' then [] :: splitOnDollar cs
    else
      match splitOnDollar cs with
      | [] => [[c]]
      | h :: t => (c :: h) :: t

/-- Modelled from the spec: `PasswordHash::new` — parse a PHC digest
string. Fails (returns `none`) unless the string starts with `$` and
its first field is a non-empty identifier over `a-z`, `0-9`, `-`. -/
def phcParse (s : String) : Option PhcDigest :=
  match splitOnDollar s.data with
  | [] :: alg :: rest =>
    if alg ≠ [] ∧ alg.all fun c =>
        ('a' ≤ c && c ≤ 'z') || ('0' ≤ c && c ≤ '9') || c = '-' then
      some { algorithm := alg, rest := rest }
    else none
  | _ => none

/-- `AuthService::verify_password` from
`src/plugin/auth-plugin/src/service.rs` lines 78-94 (the app copy,
lines 474-482, is identical in this respect):
`PasswordHash::new(hash).map_err(|_| AuthError::Internal)?`, then the
Argon2 verification `argon2.verify_password(...).is_ok()`. The Argon2
computation itself is external cryptography, abstracted as the argument
`argonVerify`. -/
def verify_password (argonVerify : String → PhcDigest → Bool)
    (password digest : String) : Except AuthError Bool :=
  match phcParse digest with
  | none => .error .Internal
  | some parsed => .ok (argonVerify password parsed)

-- ============================================
-- Concrete instances used by witnesses and counterexamples
-- ============================================

/-- A demo active account (id 7). -/
def demoUser : User :=
  { id := 7, email := "known@x.test", status := .Active
    email_verified_at := some 10, last_login_at := none
    last_login_ip := none, failed_login_attempts := 0
    locked_until := none }

/-- A single-row users table holding `demoUser`. -/
def demoUsers : List User := [demoUser]

/-- A live (unrevoked, unexpired at time 100) refresh record for
account 7, id 1. -/
def demoLiveToken : RefreshToken :=
  { id := 1, user_id := 7, token_hash := "h1", expires_at := 604900
    revoked_at := none, replaced_by := none }

/-- An already-revoked refresh record for account 7, id 1. -/
def demoRevokedToken : RefreshToken :=
  { demoLiveToken with revoked_at := some 5 }

/-- An expired but unrevoked refresh record for account 7, id 1
(expiry 500, examined at times after 500). -/
def demoExpiredToken : RefreshToken :=
  { demoLiveToken with expires_at := 500 }

/-- A second, never-presented refresh record for account 7 (the
replacement token of the rotation scenario). -/
def demoReplacementToken : RefreshToken :=
  { id := 2, user_id := 7, token_hash := "h2", expires_at := 604900
    revoked_at := none, replaced_by := none }

/-- A 64-character plaintext token, as `base64_url_encode` produces for
32 random bytes. -/
def demoPlainToken : String :=
  base64_url_encode (List.replicate 32 171)

-- ============================================
-- Theorems
-- ============================================

instance {ε α : Type} [DecidableEq ε] [DecidableEq α] :
    DecidableEq (Except ε α) := fun a b =>
  match a, b with
  | .ok x, .ok y =>
    if h : x = y then .isTrue (by rw [h]) else
      .isFalse (by intro hc; cases hc; exact h rfl)
  | .error x, .error y =>
    if h : x = y then .isTrue (by rw [h]) else
      .isFalse (by intro hc; cases hc; exact h rfl)
  | .ok _, .error _ => .isFalse (by intro hc; cases hc)
  | .error _, .ok _ => .isFalse (by intro hc; cases hc)

/-- C5: the plugin's `validate_password` succeeds exactly when the
password meets the minimum length and has an uppercase letter, a
lowercase letter and a digit; in every other case it fails with
`WeakPassword`. -/
theorem C5_validate_strength (cfg : AuthConfig) (p : String) :
    ((validate_password cfg p = .ok ()) ↔
      (cfg.min_password_length ≤ pwByteLen p ∧ hasUppercase p = true ∧
        hasLowercase p = true ∧ hasDigit p = true)) ∧
    (validate_password cfg p = .ok () ∨
      validate_password cfg p = .error .WeakPassword) := by
  unfold validate_password
  constructor
  · constructor
    · intro h
      by_cases h1 : pwByteLen p < cfg.min_password_length
      · rw [if_pos h1] at h
        exact absurd h (by simp)
      · rw [if_neg h1] at h
        by_cases h2 :
            (!hasUppercase p || !hasLowercase p || !hasDigit p) = true
        · rw [if_pos h2] at h
          exact absurd h (by simp)
        · simp only [Bool.or_eq_true, Bool.not_eq_true', not_or] at h2
          refine ⟨by omega, ?_, ?_, ?_⟩ <;>
            simp only [Bool.not_eq_false] at h2
          · exact h2.1.1
          · exact h2.1.2
          · exact h2.2
    · rintro ⟨hlen, hu, hl, hd⟩
      rw [if_neg (by omega), if_neg (by simp [hu, hl, hd])]
  · split_ifs <;> simp

/-- Each nibble is encoded as a character of the lowercase-hex
alphabet. -/
theorem hexDigit_isLowerHex (n : Nat) (h : n < 16) :
    isLowerHexChar (hexDigit n) = true := by
  interval_cases n <;> decide

/-- `byteToHex` always emits exactly two characters. -/
theorem byteToHex_length (b : Nat) : (byteToHex b).length = 2 := rfl

/-- Length of the hex encoding: two characters per byte. -/
theorem base64_url_encode_length (data : List Nat) :
    (base64_url_encode data).length = 2 * data.length := by
  unfold base64_url_encode
  show (data.flatMap byteToHex).length = 2 * data.length
  induction data with
  | nil => rfl
  | cons b bs ih =>
    simp only [List.flatMap_cons, List.length_append, ih,
      List.length_cons, byteToHex_length]
    omega

/-- C10: `base64_url_encode` (the plugin's hex encoder, also matching
the app's `hex::encode`) maps any 32-byte input to a 64-character
string consisting solely of the characters `0-9` and `a-f`. -/
theorem C10_token_encoding (data : List Nat) (h : data.length = 32) :
    (base64_url_encode data).length = 64 ∧
    ∀ c ∈ (base64_url_encode data).data,
      isLowerHexChar c = true := by
  constructor
  · rw [base64_url_encode_length, h]
  · intro c hc
    unfold base64_url_encode at hc
    simp only [String.data] at hc
    rcases List.mem_flatMap.mp hc with ⟨b, _, hcb⟩
    unfold byteToHex at hcb
    simp only [List.mem_cons, List.not_mem_nil, or_false] at hcb
    rcases hcb with rfl | rfl
    · exact hexDigit_isLowerHex _ (Nat.mod_lt _ (by omega))
    · exact hexDigit_isLowerHex _ (Nat.mod_lt _ (by omega))

/-- C10 witness: the encoding of a concrete 32-byte input. -/
theorem C10_token_encoding_witness :
    (List.replicate 32 171).length = 32 ∧
    ((base64_url_encode (List.replicate 32 171)).length = 64 ∧
      ∀ c ∈ (base64_url_encode (List.replicate 32 171)).data,
        isLowerHexChar c = true) :=
  ⟨by decide, C10_token_encoding (List.replicate 32 171) (by decide)⟩

/-- C6 counterexample: on the malformed digest "not-a-digest" (which
does not parse as a PHC string), `verify_password` returns the error
`Internal`; in particular it does not return `false`. -/
theorem C6_counterexample :
    verify_password (fun _ _ => false) "CorrectHorse1" "not-a-digest" =
      .error AuthError.Internal ∧
    verify_password (fun _ _ => false) "CorrectHorse1" "not-a-digest" ≠
      .ok false := by
  constructor <;> decide

/-- C6 amended: on every digest that fails to parse, `verify_password`
returns `Err(Internal)` — it neither reaches the Argon2 comparison nor
returns a boolean, so a malformed digest can never verify as `true`
(fails closed), but the failure surfaces as an error instead of the
value `false`. -/
theorem C6_amended (argonVerify : String → PhcDigest → Bool)
    (password digest : String) (h : phcParse digest = none) :
    verify_password argonVerify password digest =
      .error AuthError.Internal := by
  unfold verify_password
  rw [h]

/-- C6 amended, witness at a concrete malformed digest. -/
theorem C6_amended_witness :
    phcParse "%%%" = none ∧
    verify_password (fun _ _ => true) "Pw123456" "%%%" =
      .error AuthError.Internal :=
  ⟨by decide, C6_amended (fun _ _ => true) "Pw123456" "%%%" (by decide)⟩

/-- C7 counterexample: the advanced app's `increment_failed_attempts`,
applied to an account with a stored lockout expiry (time 1000) and a
failed-attempt count whose increment (1) is still below the default
threshold (5), clears `locked_until` to `NULL` instead of leaving it
unchanged. -/
theorem C7_counterexample :
    (app_increment_failed_attempts defaultConfig 0
        { demoUser with locked_until := some 1000 }).failed_login_attempts
      = 1 ∧
    (1 : Int) < defaultConfig.max_login_attempts ∧
    { demoUser with locked_until := some 1000 }.locked_until = some 1000 ∧
    (app_increment_failed_attempts defaultConfig 0
        { demoUser with locked_until := some 1000 }).locked_until
      = none := by
  refine ⟨rfl, by decide, rfl, rfl⟩

/-- C7 amended: both copies increment the counter by one and set
`locked_until` to `now + lockout_duration` once the incremented counter
reaches the threshold; below the threshold the plugin copy leaves
`locked_until` exactly as it was, while the advanced-app copy resets it
to `NULL`. -/
theorem C7_amended (cfg : AuthConfig) (now : Int) (u : User) :
    (increment_failed_attempts cfg now u).failed_login_attempts =
      u.failed_login_attempts + 1 ∧
    (app_increment_failed_attempts cfg now u).failed_login_attempts =
      u.failed_login_attempts + 1 ∧
    (increment_failed_attempts cfg now u).locked_until =
      (if cfg.max_login_attempts ≤ u.failed_login_attempts + 1 then
        some (now + cfg.lockout_duration)
      else u.locked_until) ∧
    (app_increment_failed_attempts cfg now u).locked_until =
      (if cfg.max_login_attempts ≤ u.failed_login_attempts + 1 then
        some (now + cfg.lockout_duration)
      else none) :=
  ⟨rfl, rfl, rfl, rfl⟩

/-- C9 counterexample: with the demo users table (which contains
`known@x.test` and not `unknown@x.test`) and a concrete fresh token,
the `forgot_password` handler's two responses are not equal — the
`reset_token` field is `some` for the known email and `none` for the
unknown one — so a caller can tell the two apart. -/
theorem C9_counterexample :
    forgot_password_handler demoUsers "known@x.test" demoPlainToken ≠
      forgot_password_handler demoUsers "unknown@x.test" demoPlainToken ∧
    (forgot_password_handler demoUsers "known@x.test"
        demoPlainToken).reset_token = some demoPlainToken ∧
    (forgot_password_handler demoUsers "unknown@x.test"
        demoPlainToken).reset_token = none := by
  refine ⟨by decide, by decide, by decide⟩

/-- C9 amended: both calls succeed with the same fixed message (no
error reveals whether the account exists), but the response body also
carries a `reset_token` field which is `null` for an unknown email and
holds the plaintext token for a known one (the handler comments that
this token echo is to be removed in production), so the two success
responses are structurally distinguishable. -/
theorem C9_amended (users : List User) (known unknown fresh : String)
    (u : User)
    (hk : users.find? (fun x => x.email = known) = some u)
    (hu : users.find? (fun x => x.email = unknown) = none)
    (hf : fresh ≠ "") :
    (forgot_password_handler users known fresh).message =
      (forgot_password_handler users unknown fresh).message ∧
    (forgot_password_handler users known fresh).reset_token =
      some fresh ∧
    (forgot_password_handler users unknown fresh).reset_token =
      none := by
  unfold forgot_password_handler forgot_password_service
  rw [hk, hu]
  refine ⟨rfl, ?_, by rfl⟩
  have : fresh.isEmpty = false := by
    rcases h : fresh.isEmpty
    · rfl
    · exact absurd ((String.isEmpty_iff fresh).mp h) hf
  simp [this]

/-- C9 amended, witness on the demo table. -/
theorem C9_amended_witness :
    demoUsers.find? (fun x => x.email = "known@x.test") = some demoUser ∧
    demoUsers.find? (fun x => x.email = "unknown@x.test") = none ∧
    demoPlainToken ≠ "" ∧
    ((forgot_password_handler demoUsers "known@x.test"
        demoPlainToken).message =
      (forgot_password_handler demoUsers "unknown@x.test"
        demoPlainToken).message ∧
    (forgot_password_handler demoUsers "known@x.test"
        demoPlainToken).reset_token = some demoPlainToken ∧
    (forgot_password_handler demoUsers "unknown@x.test"
        demoPlainToken).reset_token = none) :=
  ⟨by decide, by decide, by decide,
    C9_amended demoUsers "known@x.test" "unknown@x.test" demoPlainToken
      demoUser (by decide) (by decide) (by decide)⟩

/-- C8 counterexample: issuing two password-reset tokens through the
advanced app's `forgot_password` leaves two simultaneously usable
tokens for the account, because that copy never invalidates
outstanding tokens. -/
theorem C8_counterexample :
    ((app_issue_reset_token defaultConfig 0 7 2 "t2"
        (app_issue_reset_token defaultConfig 0 7 1 "t1" [])).filter
      (fun t => t.user_id = 7 && t.usable 100)).length = 2 := by
  decide

/-- C8 amended: in the plugin copy, `forgot_password` and
`create_email_verification` first mark every outstanding unused token
of the same purpose for the account as used and then insert the fresh
one, so afterwards at most one usable token of that purpose exists for
the account at any time; the advanced-app copy inserts without
invalidating, so multiple usable reset tokens can coexist there. -/
theorem C8_amended (cfg : AuthConfig) (now t : Int)
    (user_id new_id : Nat) (new_hash : String)
    (tbl : List SingleUseToken) :
    ((plugin_issue_reset_token cfg now user_id new_id new_hash
        tbl).filter
      (fun x => x.user_id = user_id && x.usable t)).length ≤ 1 ∧
    ((plugin_issue_email_verification cfg now user_id new_id new_hash
        tbl).filter
      (fun x => x.user_id = user_id && x.usable t)).length ≤ 1 := by
  have key : ∀ (tb : List SingleUseToken),
      (tb.map fun x =>
        if x.user_id = user_id ∧ x.used_at = none then
          { x with used_at := some now }
        else x).filter
        (fun x => x.user_id = user_id && x.usable t) = [] := by
    intro tb
    rw [List.filter_eq_nil_iff]
    intro a ha
    rcases List.mem_map.mp ha with ⟨b, _, rfl⟩
    by_cases hb : b.user_id = user_id ∧ b.used_at = none
    · simp only [if_pos hb]
      simp [SingleUseToken.usable]
    · simp only [if_neg hb]
      intro hc
      simp only [Bool.and_eq_true, decide_eq_true_eq,
        SingleUseToken.usable] at hc
      exact hb ⟨hc.1, by simpa using hc.2.1⟩
  constructor
  · unfold plugin_issue_reset_token
    rw [List.filter_append, key tbl]
    simp only [List.nil_append]
    exact List.length_filter_le _ _
  · unfold plugin_issue_email_verification
    rw [List.filter_append, key tbl]
    simp only [List.nil_append]
    exact List.length_filter_le _ _

/-- After `revoke_all_tokens`, every record of the targeted account is
revoked. -/
theorem revoke_all_tokens_covers (now : Int) (uid : Nat)
    (tbl : List RefreshToken) :
    ∀ rt ∈ revoke_all_tokens now uid tbl,
      rt.user_id = uid → rt.revoked_at.isSome = true := by
  intro rt hrt hu
  rcases List.mem_map.mp hrt with ⟨b, _, rfl⟩
  by_cases hb : b.user_id = uid ∧ b.revoked_at = none
  · rw [if_pos hb] at hu ⊢
    rfl
  · rw [if_neg hb] at hu ⊢
    rcases h : b.revoked_at with _ | v
    · exact absurd ⟨hu, h⟩ hb
    · rfl

/-- The validation phase of the plugin's refresh, at a record stored
as revoked: reuse detection fires — `TokenRevoked` plus mass
revocation of the account in the claims. -/
theorem refresh_validate_at_revoked (now : Int)
    (claims : RefreshTokenClaims) (token_hash : String)
    (users : List User) (tbl : List RefreshToken)
    (stored : RefreshToken)
    (hfind : tbl.find?
        (fun rt => rt.id = claims.tid && rt.token_hash = token_hash)
      = some stored)
    (hrev : stored.is_revoked = true) :
    refresh_validate now claims token_hash users tbl =
      (.error .TokenRevoked, revoke_all_tokens now claims.sub tbl) := by
  unfold refresh_validate
  rw [hfind]
  simp [RefreshToken.is_valid, hrev]

/-- C1: presenting a refresh token whose stored record is revoked makes
both copies fail with `TokenRevoked` and, as a side effect, leaves
every refresh record of the account revoked in the post-state — in
particular any not-yet-revoked replacement token. -/
theorem C1_reuse_mass_revocation (cfg : AuthConfig) (now : Int)
    (claims : RefreshTokenClaims) (token_hash : String)
    (users : List User) (tbl tbl2 : List RefreshToken)
    (new_tid : Nat) (new_hash : String) (stored stored2 : RefreshToken)
    (hfind : tbl.find?
        (fun rt => rt.id = claims.tid && rt.token_hash = token_hash)
      = some stored)
    (hrev : stored.is_revoked = true)
    (hfind2 : tbl2.find?
        (fun rt => rt.token_hash = token_hash && rt.user_id = claims.sub)
      = some stored2)
    (hrev2 : stored2.is_revoked = true) :
    (refresh_tokens cfg now claims token_hash users tbl new_tid
        new_hash).1 = .error .TokenRevoked ∧
    (∀ rt ∈ (refresh_tokens cfg now claims token_hash users tbl new_tid
        new_hash).2,
      rt.user_id = claims.sub → rt.revoked_at.isSome = true) ∧
    (app_refresh_tokens cfg now claims token_hash users tbl2 new_tid
        new_hash).1 = .error .TokenRevoked ∧
    (∀ rt ∈ (app_refresh_tokens cfg now claims token_hash users tbl2
        new_tid new_hash).2,
      rt.user_id = claims.sub → rt.revoked_at.isSome = true) := by
  have hplug :
      refresh_tokens cfg now claims token_hash users tbl new_tid
        new_hash =
        (.error .TokenRevoked, revoke_all_tokens now claims.sub tbl) := by
    unfold refresh_tokens
    rw [refresh_validate_at_revoked now claims token_hash users tbl
      stored hfind hrev]
  have hsub : stored2.user_id = claims.sub := by
    have := List.find?_some hfind2
    simp only [Bool.and_eq_true, decide_eq_true_eq] at this
    exact this.2
  have happ :
      app_refresh_tokens cfg now claims token_hash users tbl2 new_tid
        new_hash =
        (.error .TokenRevoked,
          revoke_all_tokens now stored2.user_id tbl2) := by
    unfold app_refresh_tokens
    rw [hfind2]
    simp [hrev2]
  refine ⟨by rw [hplug], ?_, by rw [happ], ?_⟩
  · rw [hplug]
    exact revoke_all_tokens_covers now claims.sub tbl
  · rw [happ, hsub]
    exact revoke_all_tokens_covers now claims.sub tbl2

/-- C1 witness: the rotation-reuse scenario at concrete values: the
revoked record is presented while an unrevoked replacement exists; the
call fails with `TokenRevoked` and the replacement ends up revoked in
both copies. -/
theorem C1_reuse_mass_revocation_witness :
    [demoRevokedToken, demoReplacementToken].find?
        (fun rt => rt.id = (1 : Nat) && rt.token_hash = "h1")
      = some demoRevokedToken ∧
    demoRevokedToken.is_revoked = true ∧
    ((refresh_tokens defaultConfig 100 ⟨7, 1⟩ "h1" demoUsers
        [demoRevokedToken, demoReplacementToken] 3 "h3").1
      = .error .TokenRevoked ∧
    (∀ rt ∈ (refresh_tokens defaultConfig 100 ⟨7, 1⟩ "h1" demoUsers
        [demoRevokedToken, demoReplacementToken] 3 "h3").2,
      rt.user_id = 7 → rt.revoked_at.isSome = true) ∧
    (app_refresh_tokens defaultConfig 100 ⟨7, 1⟩ "h1" demoUsers
        [demoRevokedToken, demoReplacementToken] 3 "h3").1
      = .error .TokenRevoked ∧
    (∀ rt ∈ (app_refresh_tokens defaultConfig 100 ⟨7, 1⟩ "h1" demoUsers
        [demoRevokedToken, demoReplacementToken] 3 "h3").2,
      rt.user_id = 7 → rt.revoked_at.isSome = true)) :=
  ⟨by decide, by decide,
    C1_reuse_mass_revocation defaultConfig 100 ⟨7, 1⟩ "h1" demoUsers
      [demoRevokedToken, demoReplacementToken]
      [demoRevokedToken, demoReplacementToken] 3 "h3"
      demoRevokedToken demoRevokedToken
      (by decide) (by decide) (by decide) (by decide)⟩

/-- C4 counterexample: at a concrete expired-but-unrevoked record, the
plugin's `refresh_tokens` fails with `TokenRevoked`, not the
`InvalidToken` the claim requires. -/
theorem C4_counterexample :
    (refresh_tokens defaultConfig 1000 ⟨7, 1⟩ "h1" demoUsers
        [demoExpiredToken] 3 "h3").1 = .error .TokenRevoked ∧
    (refresh_tokens defaultConfig 1000 ⟨7, 1⟩ "h1" demoUsers
        [demoExpiredToken] 3 "h3").1 ≠ .error .InvalidToken := by
  refine ⟨by decide, by decide⟩

/-- C4 amended: an expired but unrevoked refresh record triggers no
mass revocation in either copy (the table is returned untouched), and
the operation fails — with `InvalidToken` in the advanced-app copy but
with `TokenRevoked` in the plugin copy. -/
theorem C4_amended (cfg : AuthConfig) (now : Int)
    (claims : RefreshTokenClaims) (token_hash : String)
    (users : List User) (tbl tbl2 : List RefreshToken)
    (new_tid : Nat) (new_hash : String) (stored stored2 : RefreshToken)
    (hfind : tbl.find?
        (fun rt => rt.id = claims.tid && rt.token_hash = token_hash)
      = some stored)
    (hexp : stored.is_expired now = true)
    (hrev : stored.is_revoked = false)
    (hfind2 : tbl2.find?
        (fun rt => rt.token_hash = token_hash && rt.user_id = claims.sub)
      = some stored2)
    (hexp2 : stored2.is_expired now = true)
    (hrev2 : stored2.is_revoked = false) :
    refresh_tokens cfg now claims token_hash users tbl new_tid new_hash
      = (.error .TokenRevoked, tbl) ∧
    app_refresh_tokens cfg now claims token_hash users tbl2 new_tid
      new_hash = (.error .InvalidToken, tbl2) := by
  constructor
  · unfold refresh_tokens refresh_validate
    rw [hfind]
    simp [RefreshToken.is_valid, hexp, hrev]
  · unfold app_refresh_tokens
    rw [hfind2]
    simp [hexp2, hrev2]

/-- C4 amended, witness at the concrete expired record. -/
theorem C4_amended_witness :
    [demoExpiredToken].find?
        (fun rt => rt.id = (1 : Nat) && rt.token_hash = "h1")
      = some demoExpiredToken ∧
    demoExpiredToken.is_expired 1000 = true ∧
    demoExpiredToken.is_revoked = false ∧
    (refresh_tokens defaultConfig 1000 ⟨7, 1⟩ "h1" demoUsers
        [demoExpiredToken] 3 "h3"
      = (.error .TokenRevoked, [demoExpiredToken]) ∧
    app_refresh_tokens defaultConfig 1000 ⟨7, 1⟩ "h1" demoUsers
        [demoExpiredToken] 3 "h3"
      = (.error .InvalidToken, [demoExpiredToken])) :=
  ⟨by decide, by decide, by decide,
    C4_amended defaultConfig 1000 ⟨7, 1⟩ "h1" demoUsers
      [demoExpiredToken] [demoExpiredToken] 3 "h3"
      demoExpiredToken demoExpiredToken
      (by decide) (by decide) (by decide) (by decide) (by decide)
      (by decide)⟩

/-- C2: the step that marks the presented record revoked
(`UPDATE refresh_tokens SET revoked_at = NOW() WHERE id = $1` in the
plugin, the `revoked_at`/`replaced_by` variant in the app) carries no
condition on the revoked state: applied to an already-revoked row it
still matches one row and overwrites `revoked_at`, so it is not the
conditional update the spec mandates. Consequently two refresh calls
racing on the same token can both pass validation against the same
snapshot of the store (final conjunct) and then both commit, since the
commit phase cannot fail. -/
theorem C2_unconditional_revoke :
    (revoke_by_id 50 1 [demoRevokedToken]).2 = 1 ∧
    (revoke_by_id 50 1 [demoRevokedToken]).1 =
      [{ demoRevokedToken with revoked_at := some 50 }] ∧
    (app_revoke_refresh_token 50 1 none [demoRevokedToken]).2 = 1 ∧
    (app_revoke_refresh_token 50 1 none [demoRevokedToken]).1 =
      [{ demoRevokedToken with revoked_at := some 50 }] ∧
    refresh_validate 100 ⟨7, 1⟩ "h1" demoUsers [demoLiveToken] =
      (.ok demoUser, [demoLiveToken]) := by
  refine ⟨by decide, by decide, by decide, by decide, by decide⟩

/-- A wrong-password attempt on an unlocked active account whose
incremented counter stays below the default threshold: the call fails
with `InvalidCredentials`, the counter goes up by one, and no lockout
appears. -/
theorem login_fail_below (t : Int) (u : User) (ip : Option String)
    (n : Int) (hs : u.status = UserStatus.Active)
    (hl : u.locked_until = none) (ha : u.failed_login_attempts = n)
    (hb : n + 1 < 5) :
    (login defaultConfig t u false ip).1 =
      .error .InvalidCredentials ∧
    (login defaultConfig t u false ip).2.status = UserStatus.Active ∧
    (login defaultConfig t u false ip).2.locked_until = none ∧
    (login defaultConfig t u false ip).2.failed_login_attempts =
      n + 1 := by
  have h1 : u.is_locked t = false := by simp [User.is_locked, hl]
  have h2 : ¬ defaultConfig.max_login_attempts ≤
      u.failed_login_attempts + 1 := by
    simp only [defaultConfig]
    omega
  simp [login, h1, hs, increment_failed_attempts, if_neg h2, hl, ha]
  simp only [defaultConfig]
  omega

/-- The fifth consecutive wrong-password attempt: the incremented
counter reaches the default threshold 5 and the lockout expiry is set
to the attempt time plus the default 900-second duration. -/
theorem login_fail_fifth (t : Int) (u : User) (ip : Option String)
    (hs : u.status = UserStatus.Active)
    (hl : u.locked_until = none)
    (ha : u.failed_login_attempts = 4) :
    (login defaultConfig t u false ip).1 =
      .error .InvalidCredentials ∧
    (login defaultConfig t u false ip).2.status = UserStatus.Active ∧
    (login defaultConfig t u false ip).2.locked_until =
      some (t + 900) ∧
    (login defaultConfig t u false ip).2.failed_login_attempts = 5 := by
  have h1 : u.is_locked t = false := by simp [User.is_locked, hl]
  have h2 : defaultConfig.max_login_attempts ≤
      u.failed_login_attempts + 1 := by
    simp only [defaultConfig]
    omega
  simp [login, h1, hs, increment_failed_attempts, if_pos h2, ha,
    defaultConfig]

/-- While the lockout expiry lies in the future, every login attempt —
whatever the password — fails with `AccountLocked` and leaves the
account untouched. -/
theorem login_while_locked (t : Int) (u : User) (pc : Bool)
    (ip : Option String) (e : Int)
    (hl : u.locked_until = some e) (ht : t < e) :
    login defaultConfig t u pc ip = (.error .AccountLocked, u) := by
  have h1 : u.is_locked t = true := by
    simp [User.is_locked, hl]
    omega
  simp [login, h1]

/-- Once the lockout expiry has passed, a correct-password login on an
active account succeeds and applies `record_successful_login`. -/
theorem login_after_lockout (t : Int) (u : User) (ip : Option String)
    (e : Int) (hs : u.status = UserStatus.Active)
    (hl : u.locked_until = some e) (ht : e ≤ t) :
    login defaultConfig t u true ip =
      (.ok (), record_successful_login t ip u) := by
  have h1 : u.is_locked t = false := by
    simp [User.is_locked, hl]
    omega
  simp [login, h1, hs, defaultConfig]

/-- C3: with the default configuration (threshold 5, lockout 900 s),
after five consecutive wrong-password attempts on an active unlocked
account, a sixth attempt with the correct password before the expiry
`t5 + 900` fails with `AccountLocked`; a correct-password login once
the window has elapsed succeeds and resets the failure counter to 0
and clears the lockout expiry. -/
theorem C3_lockout (u0 : User) (t1 t2 t3 t4 t5 t6 t7 : Int)
    (ip : Option String)
    (hs : u0.status = UserStatus.Active)
    (ha : u0.failed_login_attempts = 0)
    (hl : u0.locked_until = none)
    (h6 : t6 < t5 + 900) (h7 : t5 + 900 ≤ t7) :
    (login defaultConfig t6
        (iterate_failed_logins [t1, t2, t3, t4, t5] ip u0) true ip).1 =
      .error .AccountLocked ∧
    (login defaultConfig t7
        (login defaultConfig t6
          (iterate_failed_logins [t1, t2, t3, t4, t5] ip u0) true
          ip).2 true ip).1 = .ok () ∧
    (login defaultConfig t7
        (login defaultConfig t6
          (iterate_failed_logins [t1, t2, t3, t4, t5] ip u0) true
          ip).2 true ip).2.failed_login_attempts = 0 ∧
    (login defaultConfig t7
        (login defaultConfig t6
          (iterate_failed_logins [t1, t2, t3, t4, t5] ip u0) true
          ip).2 true ip).2.locked_until = none := by
  obtain ⟨r1, s1, l1, a1⟩ := login_fail_below t1 u0 ip 0 hs hl ha
    (by omega)
  obtain ⟨r2, s2, l2, a2⟩ := login_fail_below t2 _ ip 1 s1 l1 a1
    (by omega)
  obtain ⟨r3, s3, l3, a3⟩ := login_fail_below t3 _ ip 2 s2 l2 a2
    (by omega)
  obtain ⟨r4, s4, l4, a4⟩ := login_fail_below t4 _ ip 3 s3 l3 a3
    (by omega)
  obtain ⟨r5, s5, l5, a5⟩ := login_fail_fifth t5 _ ip s4 l4
    (by omega)
  have hit : iterate_failed_logins [t1, t2, t3, t4, t5] ip u0 =
      (login defaultConfig t5
        (login defaultConfig t4
          (login defaultConfig t3
            (login defaultConfig t2
              (login defaultConfig t1 u0 false ip).2 false ip).2
            false ip).2 false ip).2 false ip).2 := by
    simp [iterate_failed_logins]
  rw [hit]
  have h6full := login_while_locked t6 _ true ip (t5 + 900) l5 h6
  rw [h6full]
  have h7full := login_after_lockout t7 _ ip (t5 + 900) s5 l5 h7
  rw [h7full]
  refine ⟨rfl, rfl, rfl, rfl⟩

/-- C3 witness: the scenario at concrete times on the demo account. -/
theorem C3_lockout_witness :
    demoUser.status = UserStatus.Active ∧
    demoUser.failed_login_attempts = 0 ∧
    demoUser.locked_until = none ∧
    (6 : Int) < 5 + 900 ∧ (5 : Int) + 900 ≤ 2000 ∧
    ((login defaultConfig 6
        (iterate_failed_logins [1, 2, 3, 4, 5] none demoUser) true
        none).1 = .error .AccountLocked ∧
    (login defaultConfig 2000
        (login defaultConfig 6
          (iterate_failed_logins [1, 2, 3, 4, 5] none demoUser) true
          none).2 true none).1 = .ok () ∧
    (login defaultConfig 2000
        (login defaultConfig 6
          (iterate_failed_logins [1, 2, 3, 4, 5] none demoUser) true
          none).2 true none).2.failed_login_attempts = 0 ∧
    (login defaultConfig 2000
        (login defaultConfig 6
          (iterate_failed_logins [1, 2, 3, 4, 5] none demoUser) true
          none).2 true none).2.locked_until = none) :=
  ⟨by decide, by decide, by decide, by decide, by decide,
    C3_lockout demoUser 1 2 3 4 5 6 2000 none (by decide) (by decide)
      (by decide) (by decide) (by decide)⟩

end Rustpress
